import Mathlib

/-!
Shallow embedding of the messaging core of hyperion-core
(`src/hyperion/lib/networking/server.py` and `src/hyperion/lib/util/config.py`).

Python dictionaries are modelled as insertion-ordered association lists,
`queue.Queue` FIFOs as lists (head = oldest entry, `put` appends at the end),
sockets as numeric connection identifiers, and wire frames by their decoded
`(action, args)` content.  Wall-clock time in the spin-wait loops is
discretized in ticks of the 0.5 s `time.sleep(0.5)` granularity the source
uses.  Values that can change concurrently while a loop polls them (the
check buffer during `check_component`, a send queue during the shutdown
drain) are modelled as environments indexed by the poll number.
-/

namespace Hyperion

/-- Connections (sockets) are identified by a number. -/
abbrev Conn := Nat

/-- Enum `config.CheckState` from `src/hyperion/lib/util/config.py`. -/
inductive CheckState where
  | RUNNING
  | STOPPED
  | STOPPED_BUT_SUCCESSFUL
  | STARTED_BY_HAND
  | DEP_FAILED
  | UNREACHABLE
  | NOT_INSTALLED
deriving DecidableEq

/-- Modelled from the spec: `config.HostConnectionState` is referenced by
`server.py` but the enum is not under `src/`; the core only uses its
`DISCONNECTED` member (spec section 4.5). -/
inductive HostConnectionState where
  | CONNECTED
  | DISCONNECTED
deriving DecidableEq

/-- Modelled from the spec: the tagged event variants of
`hyperion.lib.util.events` (module not under `src/`); fields follow the
spec's data model (section Events): `CheckEvent{comp_id, check_state}`,
`DisconnectEvent{host_name}`, `SlaveReconnectEvent{host_name, port}`,
`SlaveDisconnectEvent{host_name, port}`, plus opaque further variants the
core only forwards. -/
inductive Event where
  | check (comp_id : String) (check_state : CheckState)
  | disconnect (host_name : String)
  | slaveReconnect (host_name : String) (port : Nat)
  | slaveDisconnect (host_name : String) (port : Nat)
  | forwarded (tag : Nat)
deriving DecidableEq

/-- Wire argument values: the scalars and structs carried in an action's
positional argument list. `conf`, `hostStates` and `hostStats` are the
snapshots returned by the UI server's response handlers (`cc.config` and
`cc.host_stats` are opaque to the core and are modelled as tokens,
`cc.host_states` is the map the core itself writes). -/
inductive Arg where
  | str (s : String)
  | nat (n : Nat)
  | bool (b : Bool)
  | event (e : Event)
  | conf (token : Nat)
  | hostStates (hs : List (String × (Nat × HostConnectionState)))
  | hostStats (token : Nat)
deriving DecidableEq

/-- A framed message, modelled by its decoded `(action, args)` content. -/
structure Msg where
  action : String
  args : List Arg
deriving DecidableEq

/-- Modelled from the spec: `actionSerializer.serialize_request` (module not
under `src/`) encodes `(action, args)` into a length-prefixed frame; the
framing round-trips (spec section 4.1), so frames are identified with their
decoded content. -/
def serialize_request (action : String) (args : List Arg) : Msg :=
  Msg.mk action args

/-- Lookup in an insertion-ordered association list (Python `dict.get`). -/
def lookupAssoc {κ α : Type} [DecidableEq κ] : List (κ × α) → κ → Option α
  | [], _ => none
  | (k, v) :: rest, k2 => if k = k2 then some v else lookupAssoc rest k2

/-- Python `dict` assignment `d[k] = v`: replace the value of an existing
key in place, or append a new key at the end. -/
def updateAssoc {κ α : Type} [DecidableEq κ] : List (κ × α) → κ → α → List (κ × α)
  | [], k2, v2 => [(k2, v2)]
  | (k, v) :: rest, k2, v2 =>
    if k = k2 then (k2, v2) :: rest else (k, v) :: updateAssoc rest k2 v2

/-- Python `dict.pop(k)`: drop the entry of key `k` (keys are unique). -/
def removeAssoc {κ α : Type} [DecidableEq κ] : List (κ × α) → κ → List (κ × α)
  | [], _ => []
  | (k, v) :: rest, k2 => if k = k2 then rest else (k, v) :: removeAssoc rest k2

/-- Enqueue a message on the send queue registered under `conn`
(`self.send_queues.get(connection).put(message)`). -/
def appendMsg : List (Conn × List Msg) → Conn → Msg → List (Conn × List Msg)
  | [], _, _ => []
  | (c, q) :: rest, conn, m =>
    if c = conn then (c, q ++ [m]) :: rest else (c, q) :: appendMsg rest conn m

/-- Dispatcher outcome of one interpreted action, recording which source
path was taken.  `assertionFailed` is the `assert func is not None`
statement raising `AssertionError` in the worker thread; `typeErrorDropped`
is the `except TypeError` handler that logs at error and returns;
`keyError` / `indexError` are uncaught dictionary/index failures;
`unmodelled` marks an `auth` whose first argument is not a string (the
source would store the non-string object as an identity, which can never
compare equal to a requested hostname string; no behaviour settled here
depends on it). -/
inductive Outcome where
  | normal
  | unsubscribed
  | assertionFailed
  | typeErrorDropped
  | keyError
  | indexError
  | unmodelled
deriving DecidableEq

/-! ## recvall (server.py lines 24-47) -/

/-- Fuel-indexed unfolding of `recvall`'s `while len(data) < n` loop.
`recv i r` is the chunk returned by the `i`-th call `connection.recv(r)`
(an empty chunk is EOF); `some` is a value returned by the source, `none`
means the loop has not terminated within `fuel` iterations. -/
def recvallFuel (recv : Nat → Nat → List Nat) (n : Nat) :
    Nat → List Nat → Nat → Option (List Nat)
  | 0, data, _ => if data.length < n then none else some data
  | Nat.succ fuel, data, i =>
    if data.length < n then
      recvallFuel recv n fuel (data ++ recv i (n - data.length)) (i + 1)
    else
      some data

/-! ## Shutdown drain loops (`BaseServer._quit` lines 91-100,
`SlaveManagementServer._quit` lines 402-412) -/

/-- Fuel-indexed spin loop `while guard: time.sleep(0.5)`, polling `guard`
at iteration indices `i, i+1, ...`; `some j` means the loop exited at the
poll with index `j`, `none` that it is still spinning after `fuel` polls. -/
def spinWhile (guard : Nat → Bool) : Nat → Nat → Option Nat
  | 0, _ => none
  | Nat.succ fuel, i => if guard i then spinWhile guard fuel (i + 1) else some i

/-- Guard of the per-queue wait loop in `BaseServer._quit`:
`while sub.empty(): time.sleep(0.5)` over a queue with no concurrent
producer or consumer, so its contents `q` are constant. -/
def base_quit_guard (q : List Msg) : Nat → Bool :=
  fun _ => q.isEmpty

/-- Guard of the per-queue wait loop in `SlaveManagementServer._quit`:
`while not sq.empty(): time.sleep(0.5)`; `env i` is the queue's contents at
the `i`-th poll (the reactor thread may drain it concurrently). -/
def slave_quit_guard (env : Nat → List Msg) : Nat → Bool :=
  fun i => !(env i).isEmpty

/-! ## Slave management server (class SlaveManagementServer) -/

/-- State of a `SlaveManagementServer`: the per-connection send queues
(`self.send_queues`), the identity map `self.port_mapping` (connection to
hostname, set by the `auth` action), the check-result buffer
`self.check_buffer`, and `self.notify_queue`. -/
structure SlaveServerState where
  send_queues : List (Conn × List Msg)
  port_mapping : List (Conn × String)
  check_buffer : List (String × Option CheckState)
  notify_queue : List Arg
deriving DecidableEq

/-- The scan `for connection in self.send_queues: if
self.port_mapping.get(connection) == hostname` shared by
`start_component`, `stop_component`, `start_clone_session` and
`check_component`: the first registered connection whose identity equals
`hostname` (a missing identity, Python `None`, never equals a string). -/
def findConn : List (Conn × List Msg) → List (Conn × String) → String → Option Conn
  | [], _, _ => none
  | (c, _) :: rest, pm, hostname =>
    if lookupAssoc pm c = some hostname then some c else findConn rest pm hostname

/-- `exceptions.SlaveNotReachableException` raised by the outbound
operations when no connected slave matches the requested hostname. -/
inductive SlaveNotReachableException where
  | mk (hostname : String)
deriving DecidableEq

/-- `SlaveManagementServer.start_component` (lines 725-743): serialize a
`start` frame with payload `[comp_id]`, scan for the slave identified by
`hostname`, enqueue on its queue, else raise `SlaveNotReachableException`
(the raise happens before any mutation, so the error case leaves the
server state untouched). -/
def start_component (st : SlaveServerState) (comp_id hostname : String) :
    Except SlaveNotReachableException SlaveServerState :=
  let message := serialize_request "start" [Arg.str comp_id]
  match findConn st.send_queues st.port_mapping hostname with
  | some conn => Except.ok { st with send_queues := appendMsg st.send_queues conn message }
  | none => Except.error (SlaveNotReachableException.mk hostname)

/-- `SlaveManagementServer.stop_component` (lines 745-763): same shape as
`start_component` with action `stop`. -/
def stop_component (st : SlaveServerState) (comp_id hostname : String) :
    Except SlaveNotReachableException SlaveServerState :=
  let message := serialize_request "stop" [Arg.str comp_id]
  match findConn st.send_queues st.port_mapping hostname with
  | some conn => Except.ok { st with send_queues := appendMsg st.send_queues conn message }
  | none => Except.error (SlaveNotReachableException.mk hostname)

/-- `SlaveManagementServer.start_clone_session` (lines 705-723): same shape
as `start_component` with action `start_clone_session`. -/
def start_clone_session (st : SlaveServerState) (comp_id hostname : String) :
    Except SlaveNotReachableException SlaveServerState :=
  let message := serialize_request "start_clone_session" [Arg.str comp_id]
  match findConn st.send_queues st.port_mapping hostname with
  | some conn => Except.ok { st with send_queues := appendMsg st.send_queues conn message }
  | none => Except.error (SlaveNotReachableException.mk hostname)

/-- The wait loop of `check_component` (lines 788-791):
`while end_t > time.time(): if buffer is not None: break; time.sleep(0.5)`.
Time is discretized in 0.5 s sleeps, giving at most `fuel` polls; `env i`
is the value of `self.check_buffer[comp_id]` seen by the `i`-th read after
the initial clear (a slave's `queue_event(CheckEvent)` handler may set it
concurrently).  The returned index is where the statement
`ret = self.check_buffer[comp_id]` after the loop reads: one past the read
that broke the loop, or the index after the last poll on timeout. -/
def loopExit (env : Nat → Option CheckState) : Nat → Nat → Nat
  | 0, i => i
  | Nat.succ fuel, i =>
    match env i with
    | some _ => i + 1
    | none => loopExit env fuel (i + 1)

/-- `SlaveManagementServer.check_component` (lines 765-803): serialize a
`check` frame with payload `[comp_id]`, scan for the slave identified by
`hostname`, set `check_buffer[comp_id] = None`, then if a slave was found
enqueue the frame and poll the buffer for up to `component_wait + 1`
seconds in 0.5 s sleeps (`2 * (component_wait + 1)` polls); if no slave was
found only log (no exception, no enqueue, no wait).  Finally re-read the
buffer: a non-`None` value is returned, otherwise
`CheckState.UNREACHABLE`.  Returns (state after the clear and enqueue,
returned check state, index of the final buffer read in `env`). -/
def check_component (st : SlaveServerState) (comp_id hostname : String)
    (component_wait : Nat) (env : Nat → Option CheckState) :
    SlaveServerState × CheckState × Nat :=
  let message := serialize_request "check" [Arg.str comp_id]
  let connection_queue := findConn st.send_queues st.port_mapping hostname
  let st1 : SlaveServerState :=
    { st with check_buffer := updateAssoc st.check_buffer comp_id none }
  match connection_queue with
  | some conn =>
    let st2 : SlaveServerState :=
      { st1 with send_queues := appendMsg st1.send_queues conn message }
    let fin := loopExit env (2 * (component_wait + 1)) 0
    match env fin with
    | some s => (st2, s, fin)
    | none => (st2, CheckState.UNREACHABLE, fin)
  | none =>
    match env 0 with
    | some s => (st1, s, 0)
    | none => (st1, CheckState.UNREACHABLE, 0)

/-- Handler kinds of `SlaveManagementServer.function_mapping` that map to a
callable; the dict also holds `auth -> None` and `unsubscribe -> None`,
which `dict.get` conflates with missing keys. -/
inductive SlaveHandlerKind where
  | queue_event
deriving DecidableEq

/-- `self.function_mapping.get(action)` of the slave server (lines
340-344): `None` both for the `auth`/`unsubscribe` entries and for unknown
actions. -/
def slave_function_mapping_get : String → Option SlaveHandlerKind
  | "queue_event" => some SlaveHandlerKind.queue_event
  | _ => none

/-- Whether a Python call `func(*args)` matches the handler's signature
(`_forward_event(self, event)` takes exactly one argument); a mismatch
raises `TypeError` at the call, before the body runs. -/
def slaveAccepts : SlaveHandlerKind → List Arg → Bool
  | SlaveHandlerKind.queue_event, args => args.length == 1

/-- `SlaveManagementServer._forward_event` (lines 431-438): put the event
on `self.notify_queue`; if it is a `CheckEvent` also store
`check_buffer[event.comp_id] = event.check_state`. -/
def forward_event (st : SlaveServerState) (event : Arg) : SlaveServerState :=
  let st1 : SlaveServerState := { st with notify_queue := st.notify_queue ++ [event] }
  match event with
  | Arg.event (Event.check comp_id check_state) =>
    { st1 with check_buffer := updateAssoc st1.check_buffer comp_id (some check_state) }
  | _ => st1

/-- `SlaveManagementServer._interpret_message` (lines 440-460): look up the
handler; `unsubscribe` pops the queue, unregisters and closes (a missing
queue would raise `KeyError`); `auth` stores `args[0]` as the connection's
identity (an empty `args` raises `IndexError`); otherwise
`assert func is not None` and call it, turning a signature `TypeError`
into a logged drop. -/
def slave_interpret_message (st : SlaveServerState) (action : String)
    (args : List Arg) (conn : Conn) : SlaveServerState × Outcome :=
  let func := slave_function_mapping_get action
  if action = "unsubscribe" then
    match lookupAssoc st.send_queues conn with
    | some _ => ({ st with send_queues := removeAssoc st.send_queues conn }, Outcome.unsubscribed)
    | none => (st, Outcome.keyError)
  else if action = "auth" then
    match args with
    | Arg.str hostname :: _ =>
      ({ st with port_mapping := updateAssoc st.port_mapping conn hostname }, Outcome.normal)
    | _ :: _ => (st, Outcome.unmodelled)
    | [] => (st, Outcome.indexError)
  else
    match func with
    | none => (st, Outcome.assertionFailed)
    | some h =>
      if slaveAccepts h args then
        match args with
        | event :: _ => (forward_event st event, Outcome.normal)
        | [] => (st, Outcome.normal)
      else (st, Outcome.typeErrorDropped)

/-- The zero-byte-read branch of `SlaveManagementServer.read` (lines
489-506): look up `self.port_mapping[connection]` (raising `KeyError` for
a connection that never authenticated), pop the send queue, unregister,
put a `SlaveDisconnectEvent(hostname, peer_port)` on the notify queue and
close; the `except KeyError` handler pops, unregisters and closes without
emitting any event. -/
def slave_handle_connection_loss (st : SlaveServerState) (conn : Conn)
    (peer_port : Nat) : SlaveServerState × Outcome :=
  match lookupAssoc st.port_mapping conn with
  | some hostname =>
    ({ st with
        send_queues := removeAssoc st.send_queues conn,
        notify_queue :=
          st.notify_queue ++ [Arg.event (Event.slaveDisconnect hostname peer_port)] },
      Outcome.normal)
  | none =>
    ({ st with send_queues := removeAssoc st.send_queues conn }, Outcome.keyError)

/-! ## UI server (class Server) -/

/-- State of the UI-facing `Server`: its per-connection send queues, its
`self.event_queue`, the slave server's `notify_queue` it drains
(`self.cc.slave_server.notify_queue`), and the ControlCenter data its
response handlers snapshot (`cc.host_states`, written by the core on
`DisconnectEvent`; `cc.config` and `cc.host_stats` as opaque tokens). -/
structure ServerState where
  send_queues : List (Conn × List Msg)
  event_queue : List Arg
  slave_notify_queue : List Arg
  host_states : List (String × (Nat × HostConnectionState))
  conf : Nat
  host_stats : Nat
deriving DecidableEq

/-- Handler kinds of `Server.function_mapping` (lines 137-151) that map to
a callable; the dict also holds `unsubscribe -> None`, which `dict.get`
conflates with missing keys. -/
inductive UiHandlerKind where
  | start_all
  | start
  | check
  | stop_all
  | stop
  | get_conf
  | get_host_states
  | get_host_stats
  | quit
  | reconnect_with_host
  | reload_config
  | start_clone_session
deriving DecidableEq

/-- `self.function_mapping.get(action)` of the UI server. -/
def ui_function_mapping_get : String → Option UiHandlerKind
  | "start_all" => some UiHandlerKind.start_all
  | "start" => some UiHandlerKind.start
  | "check" => some UiHandlerKind.check
  | "stop_all" => some UiHandlerKind.stop_all
  | "stop" => some UiHandlerKind.stop
  | "get_conf" => some UiHandlerKind.get_conf
  | "get_host_states" => some UiHandlerKind.get_host_states
  | "get_host_stats" => some UiHandlerKind.get_host_stats
  | "quit" => some UiHandlerKind.quit
  | "reconnect_with_host" => some UiHandlerKind.reconnect_with_host
  | "reload_config" => some UiHandlerKind.reload_config
  | "start_clone_session" => some UiHandlerKind.start_clone_session
  | _ => none

/-- `self.receiver_mapping.get(action)` (lines 153-157): the response
table, all entries `single`. -/
def ui_receiver_mapping : String → Option String
  | "get_conf" => some "single"
  | "get_host_states" => some "single"
  | "get_host_stats" => some "single"
  | _ => none

/-- Whether a Python call `func(*args)` matches the handler's signature; a
mismatch raises `TypeError` at the call, before the body runs.  Arities of
the wrappers are taken from their definitions in `server.py`
(`_start_component_wrapper(comp_id, force_mode=False)` accepts one or two
arguments, the three `_send_*` snapshots accept none, the other wrappers
one); arities of the bare ControlCenter methods (`start_all`, `stop_all`,
`reload_config` with no arguments, `reconnect_with_host(host)` with one,
`cleanup` with an optional flag) are modelled from the spec's UI action
table, their module not being under `src/`. -/
def uiAccepts : UiHandlerKind → List Arg → Bool
  | UiHandlerKind.start_all, args => args.length == 0
  | UiHandlerKind.start, args => args.length == 1 || args.length == 2
  | UiHandlerKind.check, args => args.length == 1
  | UiHandlerKind.stop_all, args => args.length == 0
  | UiHandlerKind.stop, args => args.length == 1
  | UiHandlerKind.get_conf, args => args.length == 0
  | UiHandlerKind.get_host_states, args => args.length == 0
  | UiHandlerKind.get_host_stats, args => args.length == 0
  | UiHandlerKind.quit, args => args.length == 0 || args.length == 1
  | UiHandlerKind.reconnect_with_host, args => args.length == 1
  | UiHandlerKind.reload_config, args => args.length == 0
  | UiHandlerKind.start_clone_session, args => args.length == 1

/-- Return value of the UI server's response handlers: `_send_config`
returns `cc.config`, `_send_host_states` returns `cc.host_states`,
`_send_host_stats` returns `cc.host_stats` (lines 313-320).  Handlers
outside the response table have their return value discarded by the
source. -/
def uiReturn (st : ServerState) : UiHandlerKind → Arg
  | UiHandlerKind.get_conf => Arg.conf st.conf
  | UiHandlerKind.get_host_states => Arg.hostStates st.host_states
  | UiHandlerKind.get_host_stats => Arg.hostStats st.host_stats
  | _ => Arg.nat 0

/-- `Server._interpret_message` (lines 230-262): `unsubscribe` pops the
queue, unregisters and closes; otherwise `assert func is not None`; for
actions in the response table call the handler (a signature `TypeError`
is logged and dropped), serialize `(action + "_response", [ret])` and
route it to every queue (`all`) or to the calling connection's queue only
(`single`, raising `KeyError` if that queue is gone); for other actions
just call the handler, logging and dropping a signature `TypeError`
(handler effects beyond the modelled state delegate to the ControlCenter,
which is out of scope). -/
def ui_interpret_message (st : ServerState) (action : String) (args : List Arg)
    (conn : Conn) : ServerState × Outcome :=
  let func := ui_function_mapping_get action
  if action = "unsubscribe" then
    match lookupAssoc st.send_queues conn with
    | some _ => ({ st with send_queues := removeAssoc st.send_queues conn }, Outcome.unsubscribed)
    | none => (st, Outcome.keyError)
  else
    match func with
    | none => (st, Outcome.assertionFailed)
    | some h =>
      match ui_receiver_mapping action with
      | some response_type =>
        if uiAccepts h args then
          let message := serialize_request (action ++ "_response") [uiReturn st h]
          if response_type = "all" then
            ({ st with send_queues := st.send_queues.map (fun p => (p.1, p.2 ++ [message])) },
              Outcome.normal)
          else if response_type = "single" then
            match lookupAssoc st.send_queues conn with
            | some q =>
              ({ st with send_queues := updateAssoc st.send_queues conn (q ++ [message]) },
                Outcome.normal)
            | none => (st, Outcome.keyError)
          else
            (st, Outcome.normal)
        else (st, Outcome.typeErrorDropped)
      | none =>
        if uiAccepts h args then (st, Outcome.normal) else (st, Outcome.typeErrorDropped)

/-! ## Event fan-out (`Server._process_events`, lines 264-282) -/

/-- Observable side effects of one reactor tick's event fan-out, in program
order: a `put` on a connection's send queue, or an assignment to
`cc.host_states`. -/
inductive Effect where
  | enqueue (conn : Conn) (m : Msg)
  | set_host_state (host : String) (v : Nat × HostConnectionState)
deriving DecidableEq

/-- The frame broadcast for one event:
`actionSerializer.serialize_request("queue_event", [event])`. -/
def queue_event_msg (event : Arg) : Msg :=
  serialize_request "queue_event" [event]

/-- The `isinstance(event, events.DisconnectEvent)` branch of
`_process_events` (lines 278-282): set
`cc.host_states[event.host_name] = (0, DISCONNECTED)` for a
`DisconnectEvent`, leave the map alone for any other event. -/
def fanout_host_update (hs : List (String × (Nat × HostConnectionState)))
    (event : Arg) : List (String × (Nat × HostConnectionState)) :=
  match event with
  | Arg.event (Event.disconnect h) => updateAssoc hs h (0, HostConnectionState.DISCONNECTED)
  | _ => hs

/-- Trailing effect of the `DisconnectEvent` branch (empty for any other
event). -/
def fanout_tail_effects (event : Arg) : List Effect :=
  match event with
  | Arg.event (Event.disconnect h) =>
    [Effect.set_host_state h (0, HostConnectionState.DISCONNECTED)]
  | _ => []

/-- Body of the second `while` loop of `_process_events` for one event
(lines 272-282): put the `queue_event` frame on every registered send
queue, and afterwards, if the event is a `DisconnectEvent`, set
`cc.host_states[event.host_name] = (0, DISCONNECTED)`.  Also returns the
effects in the order the source performs them: the `for`-loop of `put`
calls first, the `host_states` assignment after. -/
def fanout_one (sqs : List (Conn × List Msg))
    (hs : List (String × (Nat × HostConnectionState))) (event : Arg) :
    List (Conn × List Msg) × List (String × (Nat × HostConnectionState)) × List Effect :=
  (sqs.map (fun p => (p.1, p.2 ++ [queue_event_msg event])),
    fanout_host_update hs event,
    sqs.map (fun p => Effect.enqueue p.1 (queue_event_msg event)) ++ fanout_tail_effects event)

/-- The second `while` loop of `_process_events`, draining the UI event
queue front to back. -/
def drain_event_queue (sqs : List (Conn × List Msg))
    (hs : List (String × (Nat × HostConnectionState))) :
    List Arg → List (Conn × List Msg) × List (String × (Nat × HostConnectionState)) × List Effect
  | [] => (sqs, hs, [])
  | e :: rest =>
    let r1 := fanout_one sqs hs e
    let r2 := drain_event_queue r1.1 r1.2.1 rest
    (r2.1, r2.2.1, r1.2.2 ++ r2.2.2)

/-- `Server._process_events` (lines 264-282): the first loop moves every
event from the slave server's notify queue to the back of the UI event
queue; the second loop drains the UI event queue, fanning each event out.
Returns the new state and the effect trace in program order. -/
def process_events (st : ServerState) : ServerState × List Effect :=
  let moved := st.event_queue ++ st.slave_notify_queue
  let r := drain_event_queue st.send_queues st.host_states moved
  ({ st with
      send_queues := r.1,
      host_states := r.2.1,
      event_queue := [],
      slave_notify_queue := [] },
    r.2.2)

/-- Per-event effect list stated from the spec's fan-out description, used
to characterize the trace of `process_events`: the `queue_event` frame is
enqueued on every registered connection and, for a `DisconnectEvent`, the
`host_states` assignment follows the enqueues. -/
def per_event_effects (conns : List Conn) (event : Arg) : List Effect :=
  conns.map (fun c => Effect.enqueue c (queue_event_msg event)) ++
    match event with
    | Arg.event (Event.disconnect h) =>
      [Effect.set_host_state h (0, HostConnectionState.DISCONNECTED)]
    | _ => []

/-- Concatenation of `per_event_effects` over a list of events. -/
def trace_of_events (conns : List Conn) : List Arg → List Effect
  | [] => []
  | e :: rest => per_event_effects conns e ++ trace_of_events conns rest

/-- Whether an effect is a `host_states` assignment. -/
def isSetHostState : Effect → Bool
  | Effect.set_host_state _ _ => true
  | _ => false

/-- Whether an effect is a send-queue `put`. -/
def isEnqueue : Effect → Bool
  | Effect.enqueue _ _ => true
  | _ => false

/-- The ordering the claim under test asserts for a trace: the first
`host_states` assignment occurs strictly before the first send-queue
`put` (`List.findIdx` returns the length when no element matches). -/
def set_precedes_enqueue (tr : List Effect) : Bool :=
  Nat.blt (tr.findIdx isSetHostState) (tr.findIdx isEnqueue)

/-! ## Concrete states for counterexamples and witnesses -/

/-- A slave server with two registered, authenticated slaves `h1`, `h2`. -/
def stTwoSlaves : SlaveServerState :=
  { send_queues := [(0, []), (1, [])],
    port_mapping := [(0, "h1"), (1, "h2")],
    check_buffer := [],
    notify_queue := [] }

/-- A slave server with one registered slave that never authenticated. -/
def stUnauthed : SlaveServerState :=
  { send_queues := [(7, [])],
    port_mapping := [],
    check_buffer := [],
    notify_queue := [] }

/-- A slave server with no connections and a previously buffered check
result for component `c1`. -/
def stBuffered : SlaveServerState :=
  { send_queues := [],
    port_mapping := [],
    check_buffer := [("c1", some CheckState.RUNNING)],
    notify_queue := [] }

/-- A slave server with two registered but not yet authenticated
connections `0` and `1`. -/
def stTwoPending : SlaveServerState :=
  { send_queues := [(0, []), (1, [])],
    port_mapping := [],
    check_buffer := [],
    notify_queue := [] }

/-- The state after connections `0` and `1` of `stTwoPending` both send
`auth` with the same hostname `h1`. -/
def stTwoAuthSame : SlaveServerState :=
  (slave_interpret_message
    (slave_interpret_message stTwoPending "auth" [Arg.str "h1"] 0).1
    "auth" [Arg.str "h1"] 1).1

/-- A UI server with two connected clients and one pending
`DisconnectEvent` for host `h1` on the slave notify queue. -/
def stUiDisconnect : ServerState :=
  { send_queues := [(0, []), (1, [])],
    event_queue := [],
    slave_notify_queue := [Arg.event (Event.disconnect "h1")],
    host_states := [],
    conf := 0,
    host_stats := 0 }

/-- A UI server with two connected clients, used for the response-routing
witness. -/
def stUiTwo : ServerState :=
  { send_queues := [(0, []), (1, [])],
    event_queue := [],
    slave_notify_queue := [],
    host_states := [("h1", (5, HostConnectionState.CONNECTED))],
    conf := 3,
    host_stats := 4 }

/-- A queue trace for the shutdown drain: three polls see one pending
message, the reactor then drains it. -/
def envDrain : Nat → List Msg :=
  fun i => if i < 3 then [Msg.mk "quit" []] else []

/-- An environment in which the check buffer is never set. -/
def envNone : Nat → Option CheckState :=
  fun _ => none

/-- An environment in which a `RUNNING` check result arrives at poll 2 and
stays. -/
def envLateRunning : Nat → Option CheckState :=
  fun i => if i < 2 then none else some CheckState.RUNNING

/-! ## Association-list lemmas -/

theorem lookupAssoc_update_self {κ α : Type} [DecidableEq κ] (l : List (κ × α)) (k : κ) (v : α) :
    lookupAssoc (updateAssoc l k v) k = some v := by
  induction l with
  | nil => simp [updateAssoc, lookupAssoc]
  | cons p rest ih =>
    obtain ⟨k1, v1⟩ := p
    by_cases h : k1 = k
    · simp [updateAssoc, h, lookupAssoc]
    · simp [updateAssoc, h, lookupAssoc, ih]

theorem lookupAssoc_update_ne {κ α : Type} [DecidableEq κ] (l : List (κ × α)) (k k2 : κ) (v : α)
    (h : k2 ≠ k) : lookupAssoc (updateAssoc l k v) k2 = lookupAssoc l k2 := by
  induction l with
  | nil => simp [updateAssoc, lookupAssoc, Ne.symm h]
  | cons p rest ih =>
    obtain ⟨k1, v1⟩ := p
    by_cases h1 : k1 = k
    · subst h1
      simp [updateAssoc, lookupAssoc, Ne.symm h]
    · simp [updateAssoc, h1, lookupAssoc, ih]

theorem lookupAssoc_appendMsg_self (l : List (Conn × List Msg)) (c : Conn) (m : Msg) :
    lookupAssoc (appendMsg l c m) c = Option.map (fun q => q ++ [m]) (lookupAssoc l c) := by
  induction l with
  | nil => simp [appendMsg, lookupAssoc]
  | cons p rest ih =>
    obtain ⟨c1, q1⟩ := p
    by_cases h : c1 = c
    · simp [appendMsg, h, lookupAssoc]
    · simp [appendMsg, h, lookupAssoc, ih]

theorem lookupAssoc_appendMsg_ne (l : List (Conn × List Msg)) (c c2 : Conn) (m : Msg)
    (h : c2 ≠ c) : lookupAssoc (appendMsg l c m) c2 = lookupAssoc l c2 := by
  induction l with
  | nil => simp [appendMsg, lookupAssoc]
  | cons p rest ih =>
    obtain ⟨c1, q1⟩ := p
    by_cases h1 : c1 = c
    · subst h1
      simp [appendMsg, lookupAssoc, Ne.symm h]
    · simp [appendMsg, h1, lookupAssoc, ih]

/-- The scan of the outbound operations only returns a connection whose
recorded identity is the requested hostname. -/
theorem findConn_identity (sqs : List (Conn × List Msg)) (pm : List (Conn × String))
    (hostname : String) (c : Conn) (h : findConn sqs pm hostname = some c) :
    lookupAssoc pm c = some hostname := by
  induction sqs with
  | nil => simp [findConn] at h
  | cons p rest ih =>
    obtain ⟨c1, q1⟩ := p
    by_cases h1 : lookupAssoc pm c1 = some hostname
    · simp [findConn, h1] at h
      exact h ▸ h1
    · simp [findConn, h1] at h
      exact ih h

/-- The scan of the outbound operations only returns a registered
connection. -/
theorem findConn_registered (sqs : List (Conn × List Msg)) (pm : List (Conn × String))
    (hostname : String) (c : Conn) (h : findConn sqs pm hostname = some c) :
    (lookupAssoc sqs c).isSome = true := by
  induction sqs with
  | nil => simp [findConn] at h
  | cons p rest ih =>
    obtain ⟨c1, q1⟩ := p
    by_cases h1 : lookupAssoc pm c1 = some hostname
    · simp [findConn, h1] at h
      simp [lookupAssoc, h]
    · simp [findConn, h1] at h
      by_cases h2 : c1 = c
      · simp [lookupAssoc, h2]
      · simp only [lookupAssoc, h2, if_false]
        exact ih h

/-! ## Spin-loop lemmas -/

/-- If a fuel-bounded spin loop exits at poll `i`, the guard was false
there. -/
theorem spinWhile_exit_guard_false (guard : Nat → Bool) (fuel i0 i : Nat)
    (h : spinWhile guard fuel i0 = some i) : guard i = false := by
  induction fuel generalizing i0 with
  | zero => simp [spinWhile] at h
  | succ f ih =>
    by_cases hg : guard i0
    · simp [spinWhile, hg] at h
      exact ih _ h
    · simp [spinWhile, hg] at h
      exact h ▸ (by simpa using hg)

/-- The wait loop of `BaseServer._quit` never exits on a queue that is and
stays empty. -/
theorem spinWhile_base_empty_none (fuel i0 : Nat) :
    spinWhile (base_quit_guard []) fuel i0 = none := by
  induction fuel generalizing i0 with
  | zero => simp [spinWhile]
  | succ f ih => simp [spinWhile, base_quit_guard, ih]

/-- The final read index of `check_component`'s wait loop is bounded by
the poll budget. -/
theorem loopExit_le (env : Nat → Option CheckState) (fuel i : Nat) :
    loopExit env fuel i ≤ i + fuel := by
  induction fuel generalizing i with
  | zero => simp [loopExit]
  | succ f ih =>
    cases henv : env i with
    | some s =>
      simp only [loopExit, henv]
      omega
    | none =>
      have := ih (i + 1)
      simp only [loopExit, henv]
      omega

/-- Once the concurrently written check buffer holds a value and writes
have stopped changing it, it holds that value at every later poll. -/
theorem env_propagate (env : Nat → Option CheckState)
    (hstab : ∀ j s, env j = some s → env (j + 1) = some s)
    (j : Nat) (v : CheckState) (hj : env j = some v) (d : Nat) :
    env (j + d) = some v := by
  induction d with
  | zero => simpa using hj
  | succ d ih => exact hstab (j + d) v ih

/-- If the buffer settles on value `v` no later than poll `k` and the wait
loop has enough fuel to reach poll `k`, the read after the loop sees `v`. -/
theorem loopExit_stable_hit (env : Nat → Option CheckState)
    (hstab : ∀ j s, env j = some s → env (j + 1) = some s)
    (k : Nat) (v : CheckState) (hk : env k = some v) :
    ∀ fuel i, i ≤ k → k < i + fuel → env (loopExit env fuel i) = some v := by
  intro fuel
  induction fuel with
  | zero =>
    intro i hik hki
    omega
  | succ f ih =>
    intro i hik hki
    cases henv : env i with
    | some w =>
      have hkw : env k = some w := by
        have := env_propagate env hstab i w henv (k - i)
        have hik2 : i + (k - i) = k := by omega
        rwa [hik2] at this
      have hwv : w = v := by
        rw [hk] at hkw
        exact (Option.some_inj.mp hkw).symm
      subst hwv
      have : env (i + 1) = some w := hstab i w henv
      simpa [loopExit, henv] using this
    | none =>
      have hik2 : i + 1 ≤ k := by
        rcases Nat.lt_or_ge i k with hlt | hge
        · omega
        · have : i = k := by omega
          rw [this] at henv
          rw [hk] at henv
          simp at henv
      have := ih (i + 1) hik2 (by omega)
      simpa [loopExit, henv] using this

/-! ## recvall lemmas -/

/-- Generalized exact-length lemma: any value `recvall`'s loop returns has
length exactly `n`, provided each `recv` chunk is no longer than
requested. -/
theorem recvallFuel_length (recv : Nat → Nat → List Nat) (n : Nat)
    (hbound : ∀ i r, (recv i r).length ≤ r) :
    ∀ fuel data i d, data.length ≤ n → recvallFuel recv n fuel data i = some d →
      d.length = n := by
  intro fuel
  induction fuel with
  | zero =>
    intro data i d hlen h
    by_cases hlt : data.length < n
    · simp [recvallFuel, hlt] at h
    · simp [recvallFuel, hlt] at h
      subst h
      omega
  | succ f ih =>
    intro data i d hlen h
    by_cases hlt : data.length < n
    · simp only [recvallFuel, hlt, if_true] at h
      refine ih _ _ _ ?_ h
      have := hbound i (n - data.length)
      simp only [List.length_append]
      omega
    · simp [recvallFuel, hlt] at h
      subst h
      omega

/-- Generalized divergence lemma: when every `recv` returns an empty chunk
(end of file) while fewer than `n` bytes have accumulated, the loop never
terminates, for any fuel. -/
theorem recvallFuel_eof_none (recv : Nat → Nat → List Nat) (n : Nat)
    (heof : ∀ i r, recv i r = []) :
    ∀ fuel data i, data.length < n → recvallFuel recv n fuel data i = none := by
  intro fuel
  induction fuel with
  | zero =>
    intro data i hlt
    simp [recvallFuel, hlt]
  | succ f ih =>
    intro data i hlt
    simp only [recvallFuel, hlt, if_true, heof, List.append_nil]
    exact ih data (i + 1) hlt

/-! ## Fan-out drain lemmas -/

/-- Draining the event queue appends the `queue_event` frame of every
drained event, in drain order, to every registered send queue. -/
theorem drain_event_queue_sqs (evts : List Arg) :
    ∀ sqs hs, (drain_event_queue sqs hs evts).1 =
      sqs.map (fun p => (p.1, p.2 ++ evts.map queue_event_msg)) := by
  induction evts with
  | nil => intro sqs hs; simp [drain_event_queue]
  | cons e rest ih =>
    intro sqs hs
    simp only [drain_event_queue, fanout_one, ih, List.map_map, List.map_cons]
    congr 1
    funext p
    simp [List.append_assoc]

/-- The effect trace of the drain is the per-event effect blocks in drain
order, each block being the enqueues on all registered connections
followed by the `host_states` assignment when the event is a
`DisconnectEvent`. -/
theorem drain_event_queue_trace (evts : List Arg) :
    ∀ sqs hs, (drain_event_queue sqs hs evts).2.2 =
      trace_of_events (sqs.map Prod.fst) evts := by
  induction evts with
  | nil => intro sqs hs; simp [drain_event_queue, trace_of_events]
  | cons e rest ih =>
    intro sqs hs
    simp only [drain_event_queue, fanout_one, ih, List.map_map, trace_of_events]
    congr 1
    · unfold per_event_effects fanout_tail_effects
      cases e with
      | str s => simp [List.map_map]
      | nat n => simp [List.map_map]
      | bool b => simp [List.map_map]
      | event ev => cases ev <;> simp [List.map_map]
      | conf t => simp [List.map_map]
      | hostStates hs2 => simp [List.map_map]
      | hostStats t => simp [List.map_map]

/-- A `host_states` entry already set to `(0, DISCONNECTED)` survives the
rest of the drain. -/
theorem drain_event_queue_hs_stable (evts : List Arg) :
    ∀ sqs hs h, lookupAssoc hs h = some (0, HostConnectionState.DISCONNECTED) →
      lookupAssoc (drain_event_queue sqs hs evts).2.1 h =
        some (0, HostConnectionState.DISCONNECTED) := by
  induction evts with
  | nil => intro sqs hs h hh; simpa [drain_event_queue] using hh
  | cons e rest ih =>
    intro sqs hs h hh
    simp only [drain_event_queue, fanout_one]
    refine ih _ _ _ ?_
    unfold fanout_host_update
    cases e with
    | event ev =>
      cases ev with
      | disconnect h2 =>
        by_cases hhh : h = h2
        · subst hhh
          simp [lookupAssoc_update_self]
        · simpa [lookupAssoc_update_ne _ _ _ _ hhh] using hh
      | check a b => exact hh
      | slaveReconnect a b => exact hh
      | slaveDisconnect a b => exact hh
      | forwarded t => exact hh
    | str s => exact hh
    | nat n => exact hh
    | bool b => exact hh
    | conf t => exact hh
    | hostStates hs2 => exact hh
    | hostStats t => exact hh

/-- After the drain, every host named by a drained `DisconnectEvent` maps
to `(0, DISCONNECTED)`. -/
theorem drain_event_queue_hs_mem (evts : List Arg) :
    ∀ sqs hs h, Arg.event (Event.disconnect h) ∈ evts →
      lookupAssoc (drain_event_queue sqs hs evts).2.1 h =
        some (0, HostConnectionState.DISCONNECTED) := by
  induction evts with
  | nil => intro sqs hs h hmem; simp at hmem
  | cons e rest ih =>
    intro sqs hs h hmem
    rcases List.mem_cons.1 hmem with heq | hmem2
    · subst heq
      simp only [drain_event_queue, fanout_one]
      refine drain_event_queue_hs_stable rest _ _ _ ?_
      simp [fanout_host_update, lookupAssoc_update_self]
    · simp only [drain_event_queue, fanout_one]
      exact ih _ _ _ hmem2

/-! ## Claim theorems -/

/-- C9: `recvall(connection, n)` returns only byte strings of exactly
length `n`; if the connection reaches end of file (every `recv` yields an
empty chunk) before `n` bytes have accumulated, the `while len(data) < n`
loop never terminates — despite the docstring, `recvall` never returns
`None` on EOF (the embedding has no other return path than the
full-length `some`). -/
theorem C9_recvall_exact_or_diverges (recv : Nat → Nat → List Nat) (n : Nat)
    (hbound : ∀ i r, (recv i r).length ≤ r) :
    (∀ fuel d, recvallFuel recv n fuel [] 0 = some d → d.length = n)
    ∧ ((∀ i r, recv i r = []) → 0 < n →
        ∀ fuel, recvallFuel recv n fuel [] 0 = none) := by
  constructor
  · intro fuel d h
    exact recvallFuel_length recv n hbound fuel [] 0 d (by simp) h
  · intro heof hn fuel
    exact recvallFuel_eof_none recv n heof fuel [] 0 (by simpa using hn)

/-- Witness for C9: a connection delivering `List.range r` chunks lets
`recvall` return a value, and that value has exactly the requested
length 3. -/
theorem C9_recvall_witness :
    recvallFuel (fun _ r => List.range r) 3 1 [] 0 = some [0, 1, 2]
    ∧ ([0, 1, 2] : List Nat).length = 3 := by
  refine ⟨by decide, ?_⟩
  exact (C9_recvall_exact_or_diverges (fun _ r => List.range r) 3
    (fun i r => by simp)).1 1 [0, 1, 2] (by decide)

/-- C3: the drain phase of `SlaveManagementServer._quit` spins
`while not sq.empty()` and so returns only once the polled queue has
drained, whereas `BaseServer._quit` spins `while sub.empty()` — the
opposite predicate — and so never terminates on a queue that is empty and
is not filled by any concurrent producer. -/
theorem C3_quit_drain_predicates :
    (∀ fuel, spinWhile (base_quit_guard []) fuel 0 = none)
    ∧ (∀ env fuel i, spinWhile (slave_quit_guard env) fuel 0 = some i → env i = [])
    ∧ (∀ q i, base_quit_guard q i = !(slave_quit_guard (fun _ => q) i)) := by
  refine ⟨fun fuel => spinWhile_base_empty_none fuel 0, ?_, ?_⟩
  · intro env fuel i h
    have := spinWhile_exit_guard_false _ _ _ _ h
    simpa [slave_quit_guard, List.isEmpty_iff] using this
  · intro q i
    simp [base_quit_guard, slave_quit_guard]

/-- Witness for C3: with one pending message drained by the reactor at
poll 3, the slave drain loop exits at poll 3 and the queue is indeed empty
there. -/
theorem C3_quit_drain_witness :
    spinWhile (slave_quit_guard envDrain) 5 0 = some 3 ∧ envDrain 3 = [] := by
  refine ⟨by decide, ?_⟩
  exact C3_quit_drain_predicates.2.1 envDrain 5 3 (by decide)

/-- C8 counterexample: the identity map is not one-to-one — starting from
two registered, unauthenticated connections, an `auth("h1")` on connection
0 followed by an `auth("h1")` on connection 1 leaves both registered
connections mapped to the same hostname. -/
theorem C8_counterexample :
    lookupAssoc stTwoAuthSame.port_mapping 0 = some "h1"
    ∧ lookupAssoc stTwoAuthSame.port_mapping 1 = some "h1"
    ∧ (lookupAssoc stTwoAuthSame.send_queues 0).isSome = true
    ∧ (lookupAssoc stTwoAuthSame.send_queues 1).isSome = true
    ∧ (0 : Conn) ≠ 1 := by
  decide

/-- C8 (amended): a later `auth` arriving on the same connection
overwrites that connection's previous identity and touches no other
connection's identity and no send queue; but distinct connections may
record the same hostname, so the map is not one-to-one. -/
theorem C8_auth_overwrites (st : SlaveServerState) (conn : Conn) (hostname : String) :
    lookupAssoc (slave_interpret_message st "auth" [Arg.str hostname] conn).1.port_mapping conn =
      some hostname
    ∧ (∀ c, c ≠ conn →
        lookupAssoc (slave_interpret_message st "auth" [Arg.str hostname] conn).1.port_mapping c =
          lookupAssoc st.port_mapping c)
    ∧ (slave_interpret_message st "auth" [Arg.str hostname] conn).1.send_queues = st.send_queues
    ∧ (slave_interpret_message st "auth" [Arg.str hostname] conn).2 = Outcome.normal := by
  refine ⟨?_, ?_, ?_, ?_⟩
  · simp [slave_interpret_message, lookupAssoc_update_self]
  · intro c hc
    simp [slave_interpret_message, lookupAssoc_update_ne _ _ _ _ hc]
  · simp [slave_interpret_message]
  · simp [slave_interpret_message]

/-- Witness for C8 (amended): connection 0 of `stTwoSlaves`, previously
identified as `h1`, re-authenticates as `h9`; its identity is overwritten
and connection 1 keeps identity `h2`. -/
theorem C8_auth_overwrites_witness :
    lookupAssoc (slave_interpret_message stTwoSlaves "auth" [Arg.str "h9"] 0).1.port_mapping 0 =
      some "h9"
    ∧ lookupAssoc (slave_interpret_message stTwoSlaves "auth" [Arg.str "h9"] 0).1.port_mapping 1 =
      lookupAssoc stTwoSlaves.port_mapping 1 := by
  exact ⟨(C8_auth_overwrites stTwoSlaves 0 "h9").1,
    (C8_auth_overwrites stTwoSlaves 0 "h9").2.1 1 (by decide)⟩

/-- C7 counterexample: a registered slave connection that never sent
`auth` reads zero bytes; the source's `port_mapping[connection]` lookup
raises `KeyError`, the handler drops the connection, and no
`SlaveDisconnectEvent` is put on the notify queue. -/
theorem C7_counterexample :
    (slave_handle_connection_loss stUnauthed 7 55).1.notify_queue = []
    ∧ (slave_handle_connection_loss stUnauthed 7 55).2 = Outcome.keyError
    ∧ (slave_handle_connection_loss stUnauthed 7 55).1.send_queues = [] := by
  decide

/-- C7 (amended): on a zero-byte read, a slave connection that has an
identity has its send queue removed, is unregistered and closed, and a
`SlaveDisconnectEvent` carrying that identity and the peer port is put on
the notify queue; a connection without identity is removed and closed with
no event. -/
theorem C7_slave_eof (st : SlaveServerState) (conn : Conn) (peer_port : Nat) :
    (∀ hostname, lookupAssoc st.port_mapping conn = some hostname →
      slave_handle_connection_loss st conn peer_port =
        ({ st with
            send_queues := removeAssoc st.send_queues conn,
            notify_queue :=
              st.notify_queue ++ [Arg.event (Event.slaveDisconnect hostname peer_port)] },
          Outcome.normal))
    ∧ (lookupAssoc st.port_mapping conn = none →
        slave_handle_connection_loss st conn peer_port =
          ({ st with send_queues := removeAssoc st.send_queues conn }, Outcome.keyError)) := by
  constructor
  · intro hostname hh
    simp [slave_handle_connection_loss, hh]
  · intro hh
    simp [slave_handle_connection_loss, hh]

/-- Witness for C7 (amended): the authenticated slave `h1` on connection 0
of `stTwoSlaves` dies with peer port 99; a
`SlaveDisconnectEvent("h1", 99)` is enqueued and its send queue is gone. -/
theorem C7_slave_eof_witness :
    (slave_handle_connection_loss stTwoSlaves 0 99).1.notify_queue =
      [Arg.event (Event.slaveDisconnect "h1" 99)]
    ∧ (slave_handle_connection_loss stTwoSlaves 0 99).1.send_queues = [(1, [])] := by
  have h := (C7_slave_eof stTwoSlaves 0 99).1 "h1" (by decide)
  rw [h]
  decide

/-- C1: with a connected slave whose identity equals `hostname`,
`check_component` clears `check_buffer[comp_id]` to `None`, enqueues
exactly one serialized `check` frame with payload `[comp_id]` on that
slave's send queue (no other queue changes), polls the buffer at most
`2 * (component_wait + 1)` times (0.5 s sleeps, hence at most
`component_wait + 1` seconds of waiting), and returns the buffer value if
it became non-`None` during the wait, else `CheckState.UNREACHABLE`. -/
theorem C1_check_component_bounded_wait (st : SlaveServerState)
    (comp_id hostname : String) (component_wait : Nat)
    (env : Nat → Option CheckState) (conn : Conn)
    (hfind : findConn st.send_queues st.port_mapping hostname = some conn) :
    lookupAssoc (check_component st comp_id hostname component_wait env).1.check_buffer comp_id =
      some none
    ∧ lookupAssoc (check_component st comp_id hostname component_wait env).1.send_queues conn =
        Option.map (fun q => q ++ [serialize_request "check" [Arg.str comp_id]])
          (lookupAssoc st.send_queues conn)
    ∧ (∀ c, c ≠ conn →
        lookupAssoc (check_component st comp_id hostname component_wait env).1.send_queues c =
          lookupAssoc st.send_queues c)
    ∧ (check_component st comp_id hostname component_wait env).1.notify_queue = st.notify_queue
    ∧ (check_component st comp_id hostname component_wait env).2.2 ≤ 2 * (component_wait + 1)
    ∧ ((∀ i, i ≤ 2 * (component_wait + 1) → env i = none) →
        (check_component st comp_id hostname component_wait env).2.1 = CheckState.UNREACHABLE)
    ∧ ((∀ j s, env j = some s → env (j + 1) = some s) →
        ∀ k v, k < 2 * (component_wait + 1) → env k = some v →
          (check_component st comp_id hostname component_wait env).2.1 = v) := by
  cases henv : env (loopExit env (2 * (component_wait + 1)) 0) with
  | some s =>
    refine ⟨?_, ?_, ?_, ?_, ?_, ?_, ?_⟩
    · simp [check_component, hfind, henv, lookupAssoc_update_self]
    · simp [check_component, hfind, henv, lookupAssoc_appendMsg_self]
    · intro c hc
      simp [check_component, hfind, henv, lookupAssoc_appendMsg_ne _ _ _ _ hc]
    · simp [check_component, hfind, henv]
    · simp only [check_component, hfind, henv]
      simpa using loopExit_le env (2 * (component_wait + 1)) 0
    · intro hall
      have hle := loopExit_le env (2 * (component_wait + 1)) 0
      have hnone : env (loopExit env (2 * (component_wait + 1)) 0) = none :=
        hall _ (by omega)
      rw [hnone] at henv
      simp at henv
    · intro hstab k v hkb hkv
      have hfin := loopExit_stable_hit env hstab k v hkv (2 * (component_wait + 1)) 0
        (Nat.zero_le k) (by omega)
      rw [henv] at hfin
      have hsv : s = v := Option.some_inj.mp hfin
      simp [check_component, hfind, henv, hsv]
  | none =>
    refine ⟨?_, ?_, ?_, ?_, ?_, ?_, ?_⟩
    · simp [check_component, hfind, henv, lookupAssoc_update_self]
    · simp [check_component, hfind, henv, lookupAssoc_appendMsg_self]
    · intro c hc
      simp [check_component, hfind, henv, lookupAssoc_appendMsg_ne _ _ _ _ hc]
    · simp [check_component, hfind, henv]
    · simp only [check_component, hfind, henv]
      simpa using loopExit_le env (2 * (component_wait + 1)) 0
    · intro hall
      simp [check_component, hfind, henv]
    · intro hstab k v hkb hkv
      have hfin := loopExit_stable_hit env hstab k v hkv (2 * (component_wait + 1)) 0
        (Nat.zero_le k) (by omega)
      rw [henv] at hfin
      simp at hfin

/-- Witness for C1: slave `h1` is connected as connection 0 of
`stTwoSlaves`; with `component_wait = 1` and a `RUNNING` answer arriving
at poll 2 and staying, `check_component` returns `RUNNING`. -/
theorem C1_check_component_witness :
    (check_component stTwoSlaves "c1" "h1" 1 envLateRunning).2.1 = CheckState.RUNNING := by
  have h := C1_check_component_bounded_wait stTwoSlaves "c1" "h1" 1 envLateRunning 0 (by decide)
  refine h.2.2.2.2.2.2 ?_ 2 CheckState.RUNNING (by decide) (by decide)
  intro j s hjs
  by_cases hj : j < 2
  · simp [envLateRunning, hj] at hjs
  · have hj1 : ¬ (j + 1 < 2) := by omega
    simp [envLateRunning, hj] at hjs
    simp [envLateRunning, hj1, hjs]

/-- C2 (amended): when no registered slave connection has an identity
equal to the requested hostname, `start_component`, `stop_component` and
`start_clone_session` raise `SlaveNotReachableException` before any
mutation, enqueuing no frame; `check_component`, by contrast, does not
raise: it enqueues no frame, skips the wait entirely, and returns
`CheckState.UNREACHABLE` when the buffer it has just cleared is not
concurrently refilled. -/
theorem C2_slave_not_reachable (st : SlaveServerState) (comp_id hostname : String)
    (component_wait : Nat) (env : Nat → Option CheckState)
    (hfind : findConn st.send_queues st.port_mapping hostname = none) :
    start_component st comp_id hostname =
      Except.error (SlaveNotReachableException.mk hostname)
    ∧ stop_component st comp_id hostname =
      Except.error (SlaveNotReachableException.mk hostname)
    ∧ start_clone_session st comp_id hostname =
      Except.error (SlaveNotReachableException.mk hostname)
    ∧ (check_component st comp_id hostname component_wait env).1.send_queues = st.send_queues
    ∧ (check_component st comp_id hostname component_wait env).2.2 = 0
    ∧ (env 0 = none →
        (check_component st comp_id hostname component_wait env).2.1 = CheckState.UNREACHABLE) := by
  refine ⟨?_, ?_, ?_, ?_, ?_, ?_⟩
  · simp [start_component, hfind]
  · simp [stop_component, hfind]
  · simp [start_clone_session, hfind]
  · cases henv : env 0 <;> simp [check_component, hfind, henv]
  · cases henv : env 0 <;> simp [check_component, hfind, henv]
  · intro henv
    simp [check_component, hfind, henv]

/-- Witness for C2 (amended): no slave of `stTwoSlaves` identifies as
`h9`; `start_component` raises `SlaveNotReachableException` and
`check_component` returns `UNREACHABLE`. -/
theorem C2_slave_not_reachable_witness :
    start_component stTwoSlaves "c1" "h9" =
      Except.error (SlaveNotReachableException.mk "h9")
    ∧ (check_component stTwoSlaves "c1" "h9" 0 envNone).2.1 = CheckState.UNREACHABLE := by
  have h := C2_slave_not_reachable stTwoSlaves "c1" "h9" 0 envNone (by decide)
  exact ⟨h.1, h.2.2.2.2.2 (by decide)⟩

/-- C2 counterexample: `check_component` on a hostname with no matching
slave does not raise `SlaveNotReachable` — the call completes normally
and returns the value `CheckState.UNREACHABLE` (its embedding has no
error channel because the source path has no raise), so the claim is
false for the fourth operation it lists. -/
theorem C2_counterexample :
    (check_component stBuffered "c1" "nosuchhost" 2 envNone).2.1 = CheckState.UNREACHABLE
    ∧ (check_component stBuffered "c1" "nosuchhost" 2 envNone).1.send_queues =
        stBuffered.send_queues
    ∧ (check_component stBuffered "c1" "nosuchhost" 2 envNone).2.2 = 0 := by
  decide

/-- C10: on the failure path (no registered connection's identity equals
the hostname) `check_component` still overwrites `check_buffer[comp_id]`
with `None` — discarding any previously buffered check state — leaves
every send queue and the notify queue untouched, performs no wait-loop
poll (the final buffer read has index 0), and returns
`CheckState.UNREACHABLE` without raising when the buffer is not
concurrently refilled. -/
theorem C10_check_component_failure_path (st : SlaveServerState)
    (comp_id hostname : String) (component_wait : Nat)
    (env : Nat → Option CheckState)
    (hfind : findConn st.send_queues st.port_mapping hostname = none) :
    lookupAssoc (check_component st comp_id hostname component_wait env).1.check_buffer comp_id =
      some none
    ∧ (∀ k, k ≠ comp_id →
        lookupAssoc (check_component st comp_id hostname component_wait env).1.check_buffer k =
          lookupAssoc st.check_buffer k)
    ∧ (check_component st comp_id hostname component_wait env).1.send_queues = st.send_queues
    ∧ (check_component st comp_id hostname component_wait env).1.notify_queue = st.notify_queue
    ∧ (check_component st comp_id hostname component_wait env).2.2 = 0
    ∧ (env 0 = none →
        (check_component st comp_id hostname component_wait env).2.1 = CheckState.UNREACHABLE) := by
  refine ⟨?_, ?_, ?_, ?_, ?_, ?_⟩
  · cases henv : env 0 <;> simp [check_component, hfind, henv, lookupAssoc_update_self]
  · intro k hk
    cases henv : env 0 <;>
      simp [check_component, hfind, henv, lookupAssoc_update_ne _ _ _ _ hk]
  · cases henv : env 0 <;> simp [check_component, hfind, henv]
  · cases henv : env 0 <;> simp [check_component, hfind, henv]
  · cases henv : env 0 <;> simp [check_component, hfind, henv]
  · intro henv
    simp [check_component, hfind, henv]

/-- Witness for C10: component `c1` of `stBuffered` had a buffered
`RUNNING` result and no slave matches `h9`; the call discards the buffer
(now `None`), enqueues nothing, and returns `UNREACHABLE`. -/
theorem C10_check_component_failure_witness :
    lookupAssoc (check_component stBuffered "c1" "h9" 3 envNone).1.check_buffer "c1" =
      some none
    ∧ (check_component stBuffered "c1" "h9" 3 envNone).2.1 = CheckState.UNREACHABLE := by
  have h := C10_check_component_failure_path stBuffered "c1" "h9" 3 envNone (by decide)
  exact ⟨h.1, h.2.2.2.2.2 (by decide)⟩

/-- C5: for each action of the response table (`get_conf`,
`get_host_states`, `get_host_stats`) arriving on a registered connection
`conn`, the server serializes `(action + "_response", [r])` with the
handler's return value `r` and appends it to `conn`'s send queue only; no
other connection's queue changes. -/
theorem C5_single_response_routing (st : ServerState) (conn : Conn) (q : List Msg)
    (hq : lookupAssoc st.send_queues conn = some q) :
    ui_interpret_message st "get_conf" [] conn =
      ({ st with send_queues := (updateAssoc st.send_queues conn
          (q ++ [serialize_request "get_conf_response" [Arg.conf st.conf]])) }, Outcome.normal)
    ∧ ui_interpret_message st "get_host_states" [] conn =
      ({ st with send_queues := (updateAssoc st.send_queues conn
          (q ++ [serialize_request "get_host_states_response" [Arg.hostStates st.host_states]])) },
        Outcome.normal)
    ∧ ui_interpret_message st "get_host_stats" [] conn =
      ({ st with send_queues := (updateAssoc st.send_queues conn
          (q ++ [serialize_request "get_host_stats_response" [Arg.hostStats st.host_stats]])) },
        Outcome.normal)
    ∧ (∀ c, c ≠ conn →
        lookupAssoc (ui_interpret_message st "get_conf" [] conn).1.send_queues c =
          lookupAssoc st.send_queues c)
    ∧ lookupAssoc (ui_interpret_message st "get_conf" [] conn).1.send_queues conn =
        some (q ++ [serialize_request "get_conf_response" [Arg.conf st.conf]]) := by
  have h1 : ui_interpret_message st "get_conf" [] conn =
      ({ st with send_queues := (updateAssoc st.send_queues conn
          (q ++ [serialize_request "get_conf_response" [Arg.conf st.conf]])) }, Outcome.normal) := by
    simp [ui_interpret_message, ui_function_mapping_get, ui_receiver_mapping, uiAccepts,
      uiReturn, serialize_request, hq]
  have h2 : ui_interpret_message st "get_host_states" [] conn =
      ({ st with send_queues := (updateAssoc st.send_queues conn
          (q ++ [serialize_request "get_host_states_response" [Arg.hostStates st.host_states]])) },
        Outcome.normal) := by
    simp [ui_interpret_message, ui_function_mapping_get, ui_receiver_mapping, uiAccepts,
      uiReturn, serialize_request, hq]
  have h3 : ui_interpret_message st "get_host_stats" [] conn =
      ({ st with send_queues := (updateAssoc st.send_queues conn
          (q ++ [serialize_request "get_host_stats_response" [Arg.hostStats st.host_stats]])) },
        Outcome.normal) := by
    simp [ui_interpret_message, ui_function_mapping_get, ui_receiver_mapping, uiAccepts,
      uiReturn, serialize_request, hq]
  refine ⟨h1, h2, h3, ?_, ?_⟩
  · intro c hc
    rw [h1]
    exact lookupAssoc_update_ne _ _ _ _ hc
  · rw [h1]
    exact lookupAssoc_update_self _ _ _

/-- Witness for C5: client 0 of `stUiTwo` sends `get_conf`; only its own
queue receives the single `get_conf_response` frame carrying the
configuration snapshot. -/
theorem C5_single_response_witness :
    (ui_interpret_message stUiTwo "get_conf" [] 0).1.send_queues =
      [(0, [serialize_request "get_conf_response" [Arg.conf 3]]), (1, [])]
    ∧ (ui_interpret_message stUiTwo "get_conf" [] 0).2 = Outcome.normal := by
  have h := (C5_single_response_routing stUiTwo 0 [] (by decide)).1
  rw [h]
  decide

/-- C6 counterexample: an action absent from the handler table does not
get logged at error and dropped — the source's `assert func is not None`
raises `AssertionError` in the worker thread instead (a different path
from the `except TypeError` log-and-drop); state is unchanged and the
connection stays, but the claimed logging behaviour is false. -/
theorem C6_counterexample :
    (ui_interpret_message stUiTwo "bogus" [] 0).2 = Outcome.assertionFailed
    ∧ (ui_interpret_message stUiTwo "bogus" [] 0).1 = stUiTwo
    ∧ Outcome.assertionFailed ≠ Outcome.typeErrorDropped := by
  decide

/-- C6 (amended): on both servers an action whose name is not in the
handler table makes the worker raise `AssertionError` (state unchanged,
no response, the connection stays registered), while an action whose
handler does not accept the given arguments is logged at error and
dropped (state unchanged, no response, the connection stays
registered). -/
theorem C6_unknown_or_mismatched_action (stU : ServerState) (stS : SlaveServerState) :
    (∀ action args conn, ui_function_mapping_get action = none → action ≠ "unsubscribe" →
      ui_interpret_message stU action args conn = (stU, Outcome.assertionFailed))
    ∧ (∀ action h args conn, ui_function_mapping_get action = some h →
        action ≠ "unsubscribe" → uiAccepts h args = false →
        ui_interpret_message stU action args conn = (stU, Outcome.typeErrorDropped))
    ∧ (∀ action args conn, slave_function_mapping_get action = none →
        action ≠ "unsubscribe" → action ≠ "auth" →
        slave_interpret_message stS action args conn = (stS, Outcome.assertionFailed))
    ∧ (∀ action h args conn, slave_function_mapping_get action = some h →
        action ≠ "unsubscribe" → action ≠ "auth" → slaveAccepts h args = false →
        slave_interpret_message stS action args conn = (stS, Outcome.typeErrorDropped)) := by
  refine ⟨?_, ?_, ?_, ?_⟩
  · intro action args conn hm hu
    simp [ui_interpret_message, hu, hm]
  · intro action h args conn hm hu hacc
    cases hrec : ui_receiver_mapping action <;>
      simp [ui_interpret_message, hu, hm, hrec, hacc]
  · intro action args conn hm hu ha
    simp [slave_interpret_message, hu, ha, hm]
  · intro action h args conn hm hu ha hacc
    simp [slave_interpret_message, hu, ha, hm, hacc]

/-- Witness for C6 (amended): a `start` action with no arguments
mismatches `_start_component_wrapper`'s signature and is dropped, and an
unknown slave action `nonsense` makes the worker's assertion fail; both
leave their server states unchanged. -/
theorem C6_unknown_or_mismatched_witness :
    ui_interpret_message stUiTwo "start" [] 5 = (stUiTwo, Outcome.typeErrorDropped)
    ∧ slave_interpret_message stTwoSlaves "nonsense" [] 0 =
      (stTwoSlaves, Outcome.assertionFailed) := by
  have h := C6_unknown_or_mismatched_action stUiTwo stTwoSlaves
  exact ⟨h.2.1 "start" UiHandlerKind.start [] 5 (by decide) (by decide) (by decide),
    h.2.2.1 "nonsense" [] 0 (by decide) (by decide) (by decide)⟩

/-- C4 counterexample: with two UI clients and a pending
`DisconnectEvent("h1")`, the effect trace of `_process_events` performs
the two queue `put`s first and the `host_states` assignment last, so
`host_states[e.host_name]` is not set before the fan-out message is
enqueued — it is set after. -/
theorem C4_counterexample :
    (process_events stUiDisconnect).2 =
      [Effect.enqueue 0 (Msg.mk "queue_event" [Arg.event (Event.disconnect "h1")]),
        Effect.enqueue 1 (Msg.mk "queue_event" [Arg.event (Event.disconnect "h1")]),
        Effect.set_host_state "h1" (0, HostConnectionState.DISCONNECTED)]
    ∧ set_precedes_enqueue (process_events stUiDisconnect).2 = false := by
  decide

/-- C4 (amended): on every tick `_process_events` first moves every event
from the slave notify queue onto the UI event queue (both end empty),
then for each drained event serializes `("queue_event", [e])` and appends
it to every registered UI connection's send queue; for every
`DisconnectEvent` it sets `host_states[e.host_name] = (0, DISCONNECTED)`
immediately after that event's fan-out enqueues (not before), as the
effect trace records. -/
theorem C4_process_events (st : ServerState) :
    (process_events st).1.event_queue = []
    ∧ (process_events st).1.slave_notify_queue = []
    ∧ (process_events st).1.send_queues =
        st.send_queues.map (fun p =>
          (p.1, p.2 ++ (st.event_queue ++ st.slave_notify_queue).map queue_event_msg))
    ∧ (process_events st).2 =
        trace_of_events (st.send_queues.map Prod.fst)
          (st.event_queue ++ st.slave_notify_queue)
    ∧ (∀ h, Arg.event (Event.disconnect h) ∈ st.event_queue ++ st.slave_notify_queue →
        lookupAssoc (process_events st).1.host_states h =
          some (0, HostConnectionState.DISCONNECTED)) := by
  refine ⟨rfl, rfl, ?_, ?_, ?_⟩
  · simp [process_events, drain_event_queue_sqs]
  · simp [process_events, drain_event_queue_trace]
  · intro h hmem
    simp only [process_events]
    exact drain_event_queue_hs_mem _ _ _ _ hmem

/-- Witness for C4 (amended): after the tick of `stUiDisconnect`,
`host_states["h1"]` equals `(0, DISCONNECTED)`. -/
theorem C4_process_events_witness :
    lookupAssoc (process_events stUiDisconnect).1.host_states "h1" =
      some (0, HostConnectionState.DISCONNECTED) := by
  exact (C4_process_events stUiDisconnect).2.2.2.2 "h1" (by decide)

end Hyperion
